import Mathlib

/-!
Shallow embedding of the listing-lifecycle core of the meal-marketplace bot:
the SQLAlchemy models (src/self_market/models.py), the CRUD state-machine
operations (src/self_market/db/crud.py), the background timeout sweep and
catalog cleanup (src/background_tasks.py), and the price validation of the
selling conversation (src/handlers/selling.py).

Modelling conventions:
- timestamps are natural numbers (seconds); a timedelta of m minutes is m * 60;
- the database is a value `DB` holding the users, meals and listings tables;
  each operation is a function `DB -> ... -> DB × result`, returning the new
  database together with the value the Python coroutine returns;
- a Python exception propagating out of a crud call is an `Except.error`;
- `None` results are `Option.none`.
-/

namespace SelfMarket

/-- Listing status enum, from `self_market/models.py` lines 25-29.  The enum
declares exactly these four members; in particular there is no `EXPIRED`
member (and none elsewhere in the model module). -/
inductive ListingStatus
  | AVAILABLE
  | AWAITING_CONFIRMATION
  | SOLD
  | CANCELLED
deriving DecidableEq, Repr, BEq

/-- Python exception escaping a crud call. -/
inductive PyErr
  | attributeError (missingMember : String)
deriving DecidableEq, Repr

/-- Row of the `users` table (`self_market/models.py` lines 34-78), restricted
to the columns the state-machine operations read. -/
structure User where
  id : Nat
  telegram_id : Nat
  is_verified : Bool
  credit_card_number : Option String
deriving DecidableEq, Repr

/-- Row of the `meals` table (`self_market/models.py` lines 87-108), restricted
to the columns the state-machine operations read.  `price_limit` is the
nullable resale ceiling. -/
structure Meal where
  id : Nat
  date : Nat
  description : String
  price_limit : Option Int
deriving DecidableEq, Repr

/-- Row of the `listings` table (`self_market/models.py` lines 142-205).
All status/party/timestamp columns of the model are present; the automatic
`created_at`/`updated_at` bookkeeping columns are omitted (no claim reads
them).  There is no `buyer_notified_payment_at` column: the model defines
none. -/
structure Listing where
  id : Nat
  seller_id : Nat
  buyer_id : Option Nat
  pending_buyer_id : Option Nat
  price : Int
  status : ListingStatus
  university_reservation_code : String
  meal_id : Nat
  sold_at : Option Nat
  pending_until : Option Nat
  cancelled_at : Option Nat
  cancelled_by_buyer_at : Option Nat
  rejected_by_seller_at : Option Nat
deriving DecidableEq, Repr

/-- The persisted database state: the three tables plus the autoincrement
counter for listing primary keys. -/
structure DB where
  users : List User
  meals : List Meal
  listings : List Listing
  next_listing_id : Nat
deriving DecidableEq, Repr

/-- crud.get_user_by_telegram_id (crud.py lines 99-105): first user row with
the given Telegram id. -/
def get_user_by_telegram_id (db : DB) (tg : Nat) : Option User :=
  db.users.find? (fun u => u.telegram_id == tg)

/-- Primary-key lookup `db.get(models.User, uid)`, and the `seller` /
`pending_buyer_relation` relationship loads (foreign key into `users.id`). -/
def db_get_user (db : DB) (uid : Nat) : Option User :=
  db.users.find? (fun u => u.id == uid)

/-- crud.get_listing_by_id (crud.py lines 529-539): first listing row with the
given primary key. -/
def get_listing_by_id (db : DB) (lid : Nat) : Option Listing :=
  db.listings.find? (fun l => l.id == lid)

/-- Primary-key lookup `db.get(models.Meal, mid)` (used by create_listing). -/
def db_get_meal (db : DB) (mid : Nat) : Option Meal :=
  db.meals.find? (fun m => m.id == mid)

/-- Committing a mutation of the ORM object fetched by primary key: the row
with that key is replaced, every other row is untouched. -/
def update_listing (db : DB) (lid : Nat) (l' : Listing) : DB :=
  { db with listings := db.listings.map (fun l => if l.id == lid then l' else l) }

/-- Attribute access `models.ListingStatus.EXPIRED` performed at crud.py line
461 while the select statement is being built.  The `ListingStatus` enum
(models.py lines 25-29) has no member named EXPIRED, so the access raises
`AttributeError` before any query is executed. -/
def ListingStatus.attr_EXPIRED : Except PyErr ListingStatus :=
  .error (.attributeError "EXPIRED")

/-- crud.check_listing_exists_by_code (crud.py lines 450-470): true iff some
listing with this code has a status that is neither CANCELLED nor EXPIRED.
Building the filter evaluates `models.ListingStatus.EXPIRED` (line 461), so
the call raises before the query runs. -/
def check_listing_exists_by_code (db : DB) (code : String) : Except PyErr Bool := do
  let expired ← ListingStatus.attr_EXPIRED
  pure (db.listings.any fun l =>
    l.university_reservation_code == code &&
    !(l.status == ListingStatus.CANCELLED) &&
    !(l.status == expired))

/-- crud.create_listing (crud.py lines 472-513): duplicate-code check first
(an exception from it propagates, line 481 is outside the try block), then the
meal existence check, then the insert of an AVAILABLE listing with the seller
set and buyer / pending-buyer / timestamps null.  The Python function returns
None on duplicate code and on missing meal. -/
def create_listing (db : DB) (seller_db_id : Nat) (university_reservation_code : String)
    (meal_id : Nat) (price : Int) : DB × Except PyErr (Option Listing) :=
  match check_listing_exists_by_code db university_reservation_code with
  | .error e => (db, .error e)
  | .ok true => (db, .ok none)
  | .ok false =>
    match db_get_meal db meal_id with
    | none => (db, .ok none)
    | some _ =>
      let new_listing : Listing :=
        { id := db.next_listing_id
          seller_id := seller_db_id
          buyer_id := none
          pending_buyer_id := none
          price := price
          status := ListingStatus.AVAILABLE
          university_reservation_code := university_reservation_code
          meal_id := meal_id
          sold_at := none
          pending_until := none
          cancelled_at := none
          cancelled_by_buyer_at := none
          rejected_by_seller_at := none }
      ({ db with listings := db.listings ++ [new_listing],
                 next_listing_id := db.next_listing_id + 1 },
       .ok (some new_listing))

/-- Default of config.PENDING_TIMEOUT_MINUTES (config.py line 35). -/
def PENDING_TIMEOUT_MINUTES_DEFAULT : Nat := 5

/-- crud.set_listing_awaiting_confirmation (crud.py lines 542-583): requires
the listing to exist with status AVAILABLE, the buyer row to exist, and the
buyer not to be the seller; then sets status AWAITING_CONFIRMATION, stores the
pending buyer's database id, nulls buyer_id and sold_at, and sets
pending_until to now plus the configured timeout (minutes). -/
def set_listing_awaiting_confirmation (db : DB) (now : Nat) (timeout_minutes : Nat)
    (listing_id : Nat) (buyer_telegram_id : Nat) : DB × Option Listing :=
  match get_listing_by_id db listing_id with
  | none => (db, none)
  | some listing =>
    if listing.status = ListingStatus.AVAILABLE then
      match get_user_by_telegram_id db buyer_telegram_id with
      | none => (db, none)
      | some buyer_user =>
        if listing.seller_id = buyer_user.id then (db, none)
        else
          let l' : Listing :=
            { listing with
                status := ListingStatus.AWAITING_CONFIRMATION
                pending_buyer_id := some buyer_user.id
                buyer_id := none
                pending_until := some (now + timeout_minutes * 60)
                sold_at := none }
          (update_listing db listing_id l', some l')
    else (db, none)

/-- crud.cancel_pending_purchase_by_buyer (crud.py lines 586-637): requires
the listing to exist with status AWAITING_CONFIRMATION and the caller to be
the pending buyer (via the pending_buyer_relation row); reverts to AVAILABLE,
nulls the pending fields, stamps cancelled_by_buyer_at, and returns the
updated listing with the seller's Telegram id. -/
def cancel_pending_purchase_by_buyer (db : DB) (now : Nat) (listing_id : Nat)
    (buyer_telegram_id : Nat) : DB × Option (Listing × Option Nat) :=
  match get_listing_by_id db listing_id with
  | none => (db, none)
  | some listing =>
    if listing.status = ListingStatus.AWAITING_CONFIRMATION then
      match listing.pending_buyer_id.bind (fun i => db_get_user db i) with
      | none => (db, none)
      | some pending_buyer =>
        if pending_buyer.telegram_id = buyer_telegram_id then
          let seller_tg := (db_get_user db listing.seller_id).map User.telegram_id
          let l' : Listing :=
            { listing with
                status := ListingStatus.AVAILABLE
                pending_buyer_id := none
                pending_until := none
                cancelled_by_buyer_at := some now }
          (update_listing db listing_id l', some (l', seller_tg))
        else (db, none)
    else (db, none)

/-- crud.reject_pending_purchase_by_seller (crud.py lines 640-691): requires
the listing to exist, the caller to be its seller, and status
AWAITING_CONFIRMATION; reverts to AVAILABLE, nulls the pending fields, stamps
rejected_by_seller_at, and returns the updated listing with the pending
buyer's Telegram id. -/
def reject_pending_purchase_by_seller (db : DB) (now : Nat) (listing_id : Nat)
    (seller_telegram_id : Nat) : DB × Option (Listing × Option Nat) :=
  match get_listing_by_id db listing_id with
  | none => (db, none)
  | some listing =>
    match db_get_user db listing.seller_id with
    | none => (db, none)
    | some seller =>
      if seller.telegram_id = seller_telegram_id then
        if listing.status = ListingStatus.AWAITING_CONFIRMATION then
          let buyer_tg :=
            (listing.pending_buyer_id.bind (fun i => db_get_user db i)).map User.telegram_id
          let l' : Listing :=
            { listing with
                status := ListingStatus.AVAILABLE
                pending_buyer_id := none
                pending_until := none
                rejected_by_seller_at := some now }
          (update_listing db listing_id l', some (l', buyer_tg))
        else (db, none)
      else (db, none)

/-- crud.finalize_listing_sale (crud.py lines 694-765): requires the listing
to exist, the caller to be its seller, status AWAITING_CONFIRMATION, a truthy
pending_buyer_id (the Python test `if not listing.pending_buyer_id` also
rejects 0), and the pending buyer row to exist; then sets status SOLD, moves
the pending buyer into buyer_id, nulls the pending fields, stamps sold_at, and
returns the updated listing with the reservation code.  Every failure returns
(None, None) with the database unchanged; no failure reason is returned. -/
def finalize_listing_sale (db : DB) (now : Nat) (listing_id : Nat)
    (confirming_seller_telegram_id : Nat) : DB × Option (Listing × String) :=
  match get_listing_by_id db listing_id with
  | none => (db, none)
  | some listing =>
    match db_get_user db listing.seller_id with
    | none => (db, none)
    | some seller =>
      if seller.telegram_id = confirming_seller_telegram_id then
        if listing.status = ListingStatus.AWAITING_CONFIRMATION then
          if listing.pending_buyer_id.getD 0 = 0 then (db, none)
          else
            match listing.pending_buyer_id.bind (fun i => db_get_user db i) with
            | none => (db, none)
            | some _pending_buyer_user =>
              let reservation_code := listing.university_reservation_code
              let l' : Listing :=
                { listing with
                    status := ListingStatus.SOLD
                    buyer_id := listing.pending_buyer_id
                    pending_buyer_id := none
                    sold_at := some now
                    pending_until := none }
              (update_listing db listing_id l', some (l', reservation_code))
        else (db, none)
      else (db, none)

/-- crud.cancel_available_listing_by_seller (crud.py lines 825-864): requires
the listing to exist, the caller to be its seller, and status AVAILABLE; sets
status CANCELLED and stamps cancelled_at, keeping the other fields. -/
def cancel_available_listing_by_seller (db : DB) (now : Nat) (listing_id : Nat)
    (seller_telegram_id : Nat) : DB × Bool :=
  match get_listing_by_id db listing_id with
  | none => (db, false)
  | some listing =>
    match db_get_user db listing.seller_id with
    | none => (db, false)
    | some seller =>
      if seller.telegram_id = seller_telegram_id then
        if listing.status = ListingStatus.AVAILABLE then
          let l' : Listing :=
            { listing with
                status := ListingStatus.CANCELLED
                cancelled_at := some now }
          (update_listing db listing_id l', true)
        else (db, false)
      else (db, false)

/-- Selection predicate of the timeout sweep (background_tasks.py lines
37-44): status AWAITING_CONFIRMATION, pending_until non-null and earlier than
now. -/
def pending_timeout_matches (now : Nat) (l : Listing) : Bool :=
  match l.pending_until with
  | none => false
  | some t => l.status == ListingStatus.AWAITING_CONFIRMATION && t < now

/-- Skip test of the timeout sweep (background_tasks.py lines 57-62): the row
is skipped when `listing.seller.telegram_id if listing.seller else None` or
`listing.pending_buyer_id` is falsy -- that is, None or 0. -/
def sweep_skips (users : List User) (l : Listing) : Bool :=
  let seller_tg := ((users.find? (fun u => u.id == l.seller_id)).map User.telegram_id).getD 0
  seller_tg == 0 || l.pending_buyer_id.getD 0 == 0

/-- Per-row effect of one sweep run (background_tasks.py lines 56-81): a
selected, non-skipped row is reverted to AVAILABLE with the pending fields
nulled; every other row is untouched. -/
def sweep_step (users : List User) (now : Nat) (l : Listing) : Listing :=
  if pending_timeout_matches now l && !(sweep_skips users l) then
    { l with status := ListingStatus.AVAILABLE
             pending_buyer_id := none
             pending_until := none }
  else l

/-- Notification record gathered for each reverted row (background_tasks.py
lines 64-70). -/
structure RevertInfo where
  listing_id : Nat
  seller_tg_id : Nat
  pending_buyer_db_id : Nat
deriving DecidableEq, Repr

/-- The list of rows one sweep run reverts (appended at background_tasks.py
line 65, after the skip test). -/
def sweep_reverts (users : List User) (now : Nat) (ls : List Listing) : List RevertInfo :=
  (ls.filter (fun l => pending_timeout_matches now l && !(sweep_skips users l))).map
    (fun l =>
      { listing_id := l.id
        seller_tg_id := ((users.find? (fun u => u.id == l.seller_id)).map User.telegram_id).getD 0
        pending_buyer_db_id := l.pending_buyer_id.getD 0 })

/-- background_tasks.check_pending_listings_timeout (lines 24-135), database
effect: one batch commit reverting every selected, non-skipped row, plus the
list of reverted rows used for notifications. -/
def check_pending_listings_timeout (db : DB) (now : Nat) : DB × List RevertInfo :=
  ({ db with listings := db.listings.map (sweep_step db.users now) },
   sweep_reverts db.users now db.listings)

/-- Cleanup step of update_meals_from_samad (background_tasks.py lines
406-468): in one transaction, first delete every listing whose meal_id is in
(select Meal.id where date < today) -- regardless of the listing's status --
then delete every meal dated before today. -/
def cleanup_past_meals (db : DB) (today : Nat) : DB :=
  let past_meal_ids := (db.meals.filter (fun m => m.date < today)).map Meal.id
  { db with
      listings := db.listings.filter (fun l => !(past_meal_ids.contains l.meal_id))
      meals := db.meals.filter (fun m => !(m.date < today)) }

/-- background_tasks.update_meals_from_samad (lines 207-470).  The credential
check at lines 217-219 only logs.  Line 221 is a bare `return` indented at
function level, so it executes unconditionally and the coroutine ends here:
the Samad API fetch and meal upsert (lines 222-403) and the past-meal/listing
cleanup (lines 405-468, embedded above as cleanup_past_meals) sit below that
return and are unreachable.  The database is returned unchanged. -/
def update_meals_from_samad (db : DB) (_creds_configured : Bool) (_today : Nat) : DB :=
  db

/-- Price check of handlers/selling.py receive_price (lines 284-307):
non-positive prices are rejected (re-prompt), a price strictly above the
meal's ceiling is rejected (re-prompt), a price at or below the ceiling -- or
any positive price when no ceiling is set -- is accepted. -/
inductive PriceCheck
  | ask_again_invalid
  | ask_again_over_limit
  | accepted (price : Int)
deriving DecidableEq, Repr

/-- receive_price validation (handlers/selling.py lines 284-307). -/
def receive_price_check (price : Int) (price_limit : Option Int) : PriceCheck :=
  if price ≤ 0 then PriceCheck.ask_again_invalid
  else
    match price_limit with
    | some lim => if price > lim then PriceCheck.ask_again_over_limit else PriceCheck.accepted price
    | none => PriceCheck.accepted price

/-- Result of the buyer's payment-sent step, as surfaced to the user. -/
inductive PaymentSentResult
  | ok
  | err_not_found
  | err_wrong_status
  | err_not_pending_buyer
  | err_no_seller
deriving DecidableEq, Repr

/-- Persisted-state effect of handlers/buying.py handle_buyer_payment_sent
(lines 556-737).  Checks: the listing exists (line 606), its status is
AWAITING_CONFIRMATION (line 611), the caller is the pending buyer (line 617),
the seller row is loadable (line 626).  When all pass, line 635 sets
`listing.buyer_notified_payment_at` -- but `Listing` (models.py lines 142-205)
has no such mapped column, so this is a plain transient attribute on the
instance and the commit at line 638 writes nothing: the persisted listing row
is unchanged in every branch. -/
def handle_buyer_payment_sent (db : DB) (listing_id : Nat) (buyer_telegram_id : Nat) :
    DB × PaymentSentResult :=
  match get_listing_by_id db listing_id with
  | none => (db, PaymentSentResult.err_not_found)
  | some listing =>
    if listing.status = ListingStatus.AWAITING_CONFIRMATION then
      match get_user_by_telegram_id db buyer_telegram_id with
      | none => (db, PaymentSentResult.err_not_pending_buyer)
      | some current_db_user =>
        if listing.pending_buyer_id = some current_db_user.id then
          match db_get_user db listing.seller_id with
          | none => (db, PaymentSentResult.err_no_seller)
          | some _ => (db, PaymentSentResult.ok)
        else (db, PaymentSentResult.err_not_pending_buyer)
    else (db, PaymentSentResult.err_wrong_status)

/-- The pending-window invariant of spec section 8: a listing is
AWAITING_CONFIRMATION exactly when its pending_until and its pending-buyer
reference are both set. -/
def pending_inv (l : Listing) : Prop :=
  l.status = ListingStatus.AWAITING_CONFIRMATION ↔
    (l.pending_until ≠ none ∧ l.pending_buyer_id ≠ none)

/-- The invariant over the whole listings table. -/
def db_inv (db : DB) : Prop := ∀ l ∈ db.listings, pending_inv l

/-! Concrete sample rows used to evaluate the operations. -/

/-- A verified seller with a registered card, database id 1, Telegram id 100. -/
def sellerUser : User :=
  { id := 1, telegram_id := 100, is_verified := true, credit_card_number := some "6037" }

/-- A verified buyer, database id 2, Telegram id 200. -/
def buyerUser : User :=
  { id := 2, telegram_id := 200, is_verified := true, credit_card_number := none }

/-- A meal on day 30 with resale ceiling 25000. -/
def demoMeal : Meal :=
  { id := 1, date := 30, description := "lunch", price_limit := some 25000 }

/-- Database with the two users and the meal, no listings yet. -/
def c4db0 : DB :=
  { users := [sellerUser, buyerUser], meals := [demoMeal], listings := [], next_listing_id := 1 }

/-- The listing create_listing would insert for code ABC123 at price 20000. -/
def c4listing : Listing :=
  { id := 1, seller_id := 1, buyer_id := none, pending_buyer_id := none, price := 20000
    status := ListingStatus.AVAILABLE, university_reservation_code := "ABC123", meal_id := 1
    sold_at := none, pending_until := none, cancelled_at := none
    cancelled_by_buyer_at := none, rejected_by_seller_at := none }

/-- Database in which that listing already exists AVAILABLE. -/
def c4db1 : DB :=
  { users := [sellerUser, buyerUser], meals := [demoMeal], listings := [c4listing]
    next_listing_id := 2 }

/-- C2: for every database and every argument tuple, create_listing raises
AttributeError: building the duplicate-code filter accesses the nonexistent
enum member ListingStatus.EXPIRED (crud.py line 461, enum at models.py lines
25-29), so the call fails before any check or insert and the database is
returned unchanged.  In particular the duplicate-code rule the claim states is
never evaluated and no listing is ever created. -/
theorem C2_create_listing_always_raises (db : DB) (seller_db_id : Nat) (code : String)
    (meal_id : Nat) (price : Int) :
    create_listing db seller_db_id code meal_id price =
      (db, Except.error (PyErr.attributeError "EXPIRED")) := rfl

/-- C4: the round trip cannot start: on a database with a fresh code, meal,
seller and distinct buyer, create_listing raises AttributeError (the
nonexistent ListingStatus.EXPIRED member is accessed by the duplicate-code
check) and inserts nothing.  The remaining pipeline does match the claim: from
a database in which the listing that create_listing was meant to insert is
AVAILABLE, initiate-purchase by the buyer followed by finalize by the seller
yields status SOLD, buyer equal to the initiating buyer (database id 2),
pending-buyer null, and returns the reservation code ABC123. -/
theorem C4_round_trip_blocked :
    create_listing c4db0 1 "ABC123" 1 20000 =
      (c4db0, Except.error (PyErr.attributeError "EXPIRED"))
  ∧ (set_listing_awaiting_confirmation c4db1 1000 5 1 200).2.isSome = true
  ∧ ((finalize_listing_sale (set_listing_awaiting_confirmation c4db1 1000 5 1 200).1
        1300 1 100).2.map
      (fun p => (p.1.status, p.1.buyer_id, p.1.pending_buyer_id, p.2)))
      = some (ListingStatus.SOLD, some 2, none, "ABC123") := by
  refine ⟨rfl, rfl, ?_⟩
  rfl

/-- C7: the price gate of the selling flow (receive_price) behaves as the
claim says -- one unit above the ceiling 25000 is rejected, the ceiling
exactly is accepted, and non-positive prices are rejected -- but the create
operation itself never succeeds, even at the ceiling: crud.create_listing
raises AttributeError through its duplicate-code check (nonexistent
ListingStatus.EXPIRED member), so the at-the-ceiling creation the claim
requires to succeed fails. -/
theorem C7_price_ceiling :
    receive_price_check 25001 (some 25000) = PriceCheck.ask_again_over_limit
  ∧ receive_price_check 25000 (some 25000) = PriceCheck.accepted 25000
  ∧ receive_price_check 0 (some 25000) = PriceCheck.ask_again_invalid
  ∧ receive_price_check (-3) none = PriceCheck.ask_again_invalid
  ∧ create_listing c4db0 1 "C7CODE" 1 25000 =
      (c4db0, Except.error (PyErr.attributeError "EXPIRED")) := by
  refine ⟨?_, ?_, ?_, ?_, rfl⟩ <;> rfl

/-- Database with a listing awaiting confirmation by buyer 2 (pending window
until time 1300), used to evaluate the payment-sent step. -/
def c9db : DB :=
  { users := [sellerUser, buyerUser], meals := [demoMeal]
    listings :=
      [{ id := 1, seller_id := 1, buyer_id := none, pending_buyer_id := some 2, price := 20000
         status := ListingStatus.AWAITING_CONFIRMATION
         university_reservation_code := "ABC123", meal_id := 1
         sold_at := none, pending_until := some 1300, cancelled_at := none
         cancelled_by_buyer_at := none, rejected_by_seller_at := none }]
    next_listing_id := 2 }

/-- C9 counterexample: the buyer's first successful payment-sent call on a
listing awaiting confirmation acknowledges success yet leaves the persisted
database exactly unchanged -- no buyer-claims-paid timestamp is recorded in
the persisted listing state, because Listing has no buyer_notified_payment_at
column and the attribute set at handlers/buying.py line 635 is transient. -/
theorem C9_counterexample :
    handle_buyer_payment_sent c9db 1 200 = (c9db, PaymentSentResult.ok) := rfl

/-- C9 amended: the payment-sent step never changes the persisted database
(its only write targets an unmapped transient attribute), hence it changes no
field of any listing -- status included -- and re-invoking it produces the
identical result. -/
theorem C9_payment_sent_frame (db : DB) (listing_id buyer_telegram_id : Nat) :
    (handle_buyer_payment_sent db listing_id buyer_telegram_id).1 = db
  ∧ handle_buyer_payment_sent (handle_buyer_payment_sent db listing_id buyer_telegram_id).1
      listing_id buyer_telegram_id
      = handle_buyer_payment_sent db listing_id buyer_telegram_id := by
  have h1 : (handle_buyer_payment_sent db listing_id buyer_telegram_id).1 = db := by
    unfold handle_buyer_payment_sent
    repeat' split
    all_goals rfl
  exact ⟨h1, by rw [h1]⟩

/-- Database holding one meal dated in the past (day 5) together with an
AVAILABLE listing referencing it, as of day 10. -/
def c10db : DB :=
  { users := [sellerUser], meals := [{ id := 1, date := 5, description := "old", price_limit := none }]
    listings :=
      [{ id := 1, seller_id := 1, buyer_id := none, pending_buyer_id := none, price := 100
         status := ListingStatus.AVAILABLE, university_reservation_code := "OLD1", meal_id := 1
         sold_at := none, pending_until := none, cancelled_at := none
         cancelled_by_buyer_at := none, rejected_by_seller_at := none }]
    next_listing_id := 2 }

/-- C10: update_meals_from_samad returns the database unchanged for every
configuration and every database state -- the bare return at
background_tasks.py line 221 executes before the API fetch, the meal upsert
and the cleanup.  The contrast conjuncts show the returned-before work is
real: on c10db the (unreachable) cleanup step would have emptied both the
meals and the listings tables, while the task leaves c10db untouched. -/
theorem C10_update_meals_early_return :
    (∀ (db : DB) (creds : Bool) (today : Nat), update_meals_from_samad db creds today = db)
  ∧ update_meals_from_samad c10db true 10 = c10db
  ∧ (cleanup_past_meals c10db 10).meals = []
  ∧ (cleanup_past_meals c10db 10).listings = []
  ∧ c10db.meals.length = 1 ∧ c10db.listings.length = 1 := by
  exact ⟨fun _ _ _ => rfl, rfl, rfl, rfl, rfl, rfl⟩

/-- A meal dated day 5, in the past relative to day 10. -/
def c8pastMeal : Meal := { id := 1, date := 5, description := "old", price_limit := none }

/-- A meal dated day 30, in the future relative to day 10. -/
def c8futureMeal : Meal := { id := 2, date := 30, description := "new", price_limit := none }

/-- An AVAILABLE (non-terminal) listing referencing the past meal. -/
def c8pastListing : Listing :=
  { id := 1, seller_id := 1, buyer_id := none, pending_buyer_id := none, price := 100
    status := ListingStatus.AVAILABLE, university_reservation_code := "PAST1", meal_id := 1
    sold_at := none, pending_until := none, cancelled_at := none
    cancelled_by_buyer_at := none, rejected_by_seller_at := none }

/-- An AVAILABLE listing referencing the future meal. -/
def c8futureListing : Listing :=
  { id := 2, seller_id := 1, buyer_id := none, pending_buyer_id := none, price := 100
    status := ListingStatus.AVAILABLE, university_reservation_code := "FUT1", meal_id := 2
    sold_at := none, pending_until := none, cancelled_at := none
    cancelled_by_buyer_at := none, rejected_by_seller_at := none }

/-- Database holding both meals and both listings. -/
def c8db : DB :=
  { users := [sellerUser], meals := [c8pastMeal, c8futureMeal]
    listings := [c8pastListing, c8futureListing], next_listing_id := 3 }

/-- C8 counterexample: as of day 10, listing 1 is AVAILABLE (non-terminal) and
references meal 1, whose date (5) has passed.  Running the cleanup step
deletes the listing outright -- afterwards no row with its id exists in any
status, so in particular no surviving listing was forced to a terminal EXPIRED
status (the status enum has no EXPIRED member at all); the meal is deleted in
the same transaction. -/
theorem C8_counterexample :
    (get_listing_by_id c8db 1).map Listing.status = some ListingStatus.AVAILABLE
  ∧ (get_listing_by_id c8db 1).map Listing.meal_id = some 1
  ∧ (db_get_meal c8db 1).map Meal.date = some 5
  ∧ get_listing_by_id (cleanup_past_meals c8db 10) 1 = none
  ∧ db_get_meal (cleanup_past_meals c8db 10) 1 = none := by
  refine ⟨rfl, rfl, rfl, ?_, ?_⟩ <;> rfl

/-- C8 amended: the cleanup step purges exactly the meals whose date has
passed and, in the same transaction, hard-deletes every listing -- whatever
its status -- that references a purged meal, before the meals are removed;
consequently every surviving listing that referenced an existing meal still
references an existing meal (referential integrity is kept by deletion, not by
marking listings EXPIRED -- no EXPIRED status exists). -/
theorem C8_cleanup_behaviour (db : DB) (today : Nat) :
    (cleanup_past_meals db today).meals = db.meals.filter (fun m => !(m.date < today))
  ∧ (cleanup_past_meals db today).listings = db.listings.filter (fun l =>
      !(((db.meals.filter (fun m => m.date < today)).map Meal.id).contains l.meal_id))
  ∧ (∀ l ∈ (cleanup_past_meals db today).listings, ∀ m ∈ db.meals,
      l.meal_id = m.id → m ∈ (cleanup_past_meals db today).meals) := by
  refine ⟨rfl, rfl, ?_⟩
  intro l hl m hm heq
  obtain ⟨hmem, hpred⟩ := List.mem_filter.mp hl
  by_cases hd : m.date < today
  · exfalso
    have hmfilter : m ∈ db.meals.filter (fun m => m.date < today) :=
      List.mem_filter.mpr ⟨hm, by simpa using hd⟩
    have hid : l.meal_id ∈ (db.meals.filter (fun m => m.date < today)).map Meal.id :=
      List.mem_map.mpr ⟨m, hmfilter, heq.symm⟩
    have helem := List.elem_eq_true_of_mem hid
    rw [List.contains] at hpred
    rw [helem] at hpred
    simp at hpred
  · exact List.mem_filter.mpr ⟨hm, by simpa using hd⟩

/-- C8 witness: the amended theorem applied to the concrete database: the
future-dated listing survives the cleanup and its meal survives with it. -/
theorem C8_cleanup_behaviour_witness :
    c8futureListing ∈ (cleanup_past_meals c8db 10).listings
  ∧ c8futureMeal ∈ (cleanup_past_meals c8db 10).meals := by
  have hmem : c8futureListing ∈ (cleanup_past_meals c8db 10).listings := by decide
  exact ⟨hmem, (C8_cleanup_behaviour c8db 10).2.2 c8futureListing hmem c8futureMeal
    (by decide) rfl⟩

/-- Database with one listing AWAITING_CONFIRMATION whose pending window
(until time 0) has passed at time 10, but whose pending_buyer_id is null; the
seller row exists. -/
def c5db : DB :=
  { users := [sellerUser], meals := [demoMeal]
    listings :=
      [{ id := 1, seller_id := 1, buyer_id := none, pending_buyer_id := none, price := 100
         status := ListingStatus.AWAITING_CONFIRMATION
         university_reservation_code := "C5A", meal_id := 1
         sold_at := none, pending_until := some 0, cancelled_at := none
         cancelled_by_buyer_at := none, rejected_by_seller_at := none }]
    next_listing_id := 2 }

/-- C5 counterexample: listing 1 of c5db is AWAITING_CONFIRMATION with
pending_until 0, earlier than the current time 10, yet one sweep run changes
nothing and reverts nothing: the loop body skips rows whose pending-buyer id
(or seller Telegram id) is falsy (background_tasks.py lines 60-62), so the
listing keeps status AWAITING_CONFIRMATION, contradicting the claim that
every past-due AWAITING_CONFIRMATION listing is reverted. -/
theorem C5_counterexample :
    (get_listing_by_id c5db 1).map Listing.status = some ListingStatus.AWAITING_CONFIRMATION
  ∧ (get_listing_by_id c5db 1).map Listing.pending_until = some (some 0)
  ∧ check_pending_listings_timeout c5db 10 = (c5db, []) := by
  refine ⟨rfl, rfl, ?_⟩
  rfl

/-- C5 amended: one sweep run reverts every past-due AWAITING_CONFIRMATION
listing that the loop does not skip (those with a truthy pending-buyer id and
a resolvable, truthy seller Telegram id), skipped rows are left unchanged, and
the sweep is idempotent: a second run on the swept database changes nothing
and reverts nothing new. -/
theorem C5_sweep_reverts_and_idempotent (db : DB) (now : Nat) :
    (∀ l ∈ db.listings, l.status = ListingStatus.AWAITING_CONFIRMATION →
      ∀ t, l.pending_until = some t → t < now →
      sweep_skips db.users l = false →
      sweep_step db.users now l =
        { l with status := ListingStatus.AVAILABLE, pending_buyer_id := none
                 pending_until := none })
  ∧ (∀ l ∈ db.listings, sweep_skips db.users l = true → sweep_step db.users now l = l)
  ∧ check_pending_listings_timeout (check_pending_listings_timeout db now).1 now
      = ((check_pending_listings_timeout db now).1, []) := by
  have key : ∀ (users : List User) (l : Listing),
      (pending_timeout_matches now (sweep_step users now l)
        && !(sweep_skips users (sweep_step users now l))) = false := by
    intro users l
    unfold sweep_step
    by_cases hp : (pending_timeout_matches now l && !(sweep_skips users l)) = true
    · rw [if_pos hp]
      simp [pending_timeout_matches]
    · rw [if_neg hp]
      exact Bool.eq_false_iff.mpr hp
  have step_self : ∀ (users : List User) (l : Listing),
      (pending_timeout_matches now l && !(sweep_skips users l)) = false →
      sweep_step users now l = l := by
    intro users l h
    unfold sweep_step
    rw [h]
    rfl
  refine ⟨?_, ?_, ?_⟩
  · intro l _ hstat t hpu ht hskip
    have hb : (ListingStatus.AWAITING_CONFIRMATION == ListingStatus.AWAITING_CONFIRMATION)
        = true := by decide
    have hmatch : pending_timeout_matches now l = true := by
      simp [pending_timeout_matches, hpu, hstat, ht, hb]
    unfold sweep_step
    rw [hmatch, hskip]
    rfl
  · intro l _ hskip
    unfold sweep_step
    rw [hskip]
    simp
  · have hmaps : (db.listings.map (sweep_step db.users now)).map (sweep_step db.users now)
        = db.listings.map (sweep_step db.users now) := by
      induction db.listings with
      | nil => rfl
      | cons a t ih =>
        simp only [List.map_cons, ih]
        rw [step_self db.users (sweep_step db.users now a) (key db.users a)]
    have hfilter : (db.listings.map (sweep_step db.users now)).filter
        (fun l => pending_timeout_matches now l && !(sweep_skips db.users l)) = [] := by
      induction db.listings with
      | nil => rfl
      | cons a t ih =>
        simp only [List.map_cons]
        rw [List.filter_cons_of_neg, ih]
        rw [key db.users a]
        exact Bool.false_ne_true
    simp only [check_pending_listings_timeout, sweep_reverts]
    rw [hmaps, hfilter]
    rfl

/-- Database with a fully well-formed expired pending purchase: pending buyer
2, seller 1 with Telegram id 100, deadline 5 already past at time 10. -/
def c5wdb : DB :=
  { users := [sellerUser, buyerUser], meals := [demoMeal]
    listings :=
      [{ id := 1, seller_id := 1, buyer_id := none, pending_buyer_id := some 2, price := 100
         status := ListingStatus.AWAITING_CONFIRMATION
         university_reservation_code := "C5W", meal_id := 1
         sold_at := none, pending_until := some 5, cancelled_at := none
         cancelled_by_buyer_at := none, rejected_by_seller_at := none }]
    next_listing_id := 2 }

/-- C5 witness: on the concrete database c5wdb the amended theorem reverts the
expired pending listing to AVAILABLE with the pending fields nulled. -/
theorem C5_sweep_witness :
    sweep_step c5wdb.users 10 (c5wdb.listings.get ⟨0, by decide⟩) =
      { c5wdb.listings.get ⟨0, by decide⟩ with
          status := ListingStatus.AVAILABLE, pending_buyer_id := none
          pending_until := none } := by
  exact (C5_sweep_reverts_and_idempotent c5wdb 10).1 (c5wdb.listings.get ⟨0, by decide⟩)
    (by decide) (by decide) 5 (by decide) (by decide) (by decide)

/-- A predicate testing only the id is preserved by id-preserving maps: the
first row found by primary key in the mapped table is the image of the first
row found in the original table. -/
theorem find?_map_id_preserving (ls : List Listing) (lid : Nat) (f : Listing → Listing)
    (hf : ∀ l, (f l).id = l.id) :
    (ls.map f).find? (fun x => x.id == lid) = (ls.find? (fun x => x.id == lid)).map f := by
  induction ls with
  | nil => rfl
  | cons a t ih =>
    by_cases ha : (a.id == lid) = true
    · have ha' : ((f a).id == lid) = true := by rw [hf a]; exact ha
      rw [List.map_cons,
        @List.find?_cons_of_pos _ (fun x => x.id == lid) (f a) (t.map f) ha',
        @List.find?_cons_of_pos _ (fun x => x.id == lid) a t ha]
      rfl
    · have ha' : ¬(((f a).id == lid) = true) := by rw [hf a]; exact ha
      rw [List.map_cons,
        @List.find?_cons_of_neg _ (fun x => x.id == lid) (f a) (t.map f) ha',
        @List.find?_cons_of_neg _ (fun x => x.id == lid) a t ha, ih]

/-- Replacing the row with a given primary key in the listings table and
looking the key up again returns the replacement, provided the replacement
keeps the key. -/
theorem find?_update_self (ls : List Listing) (lid : Nat) (l l' : Listing)
    (h : ls.find? (fun x => x.id == lid) = some l) (hid : l'.id = lid) :
    (ls.map (fun x => if x.id == lid then l' else x)).find? (fun x => x.id == lid)
      = some l' := by
  induction ls with
  | nil => simp at h
  | cons a t ih =>
    by_cases ha : (a.id == lid) = true
    · have ha' : (l'.id == lid) = true := by rw [hid]; exact beq_self_eq_true lid
      rw [List.map_cons, if_pos ha,
        @List.find?_cons_of_pos _ (fun x => x.id == lid) l'
          (t.map (fun x => if x.id == lid then l' else x)) ha']
    · rw [@List.find?_cons_of_neg _ (fun x => x.id == lid) a t ha] at h
      rw [List.map_cons, if_neg ha,
        @List.find?_cons_of_neg _ (fun x => x.id == lid) a
          (t.map (fun x => if x.id == lid then l' else x)) ha, ih h]

/-- The database-level form of the previous lemma. -/
theorem get_listing_by_id_update (db : DB) (lid : Nat) (l l' : Listing)
    (h : get_listing_by_id db lid = some l) (hid : l'.id = lid) :
    get_listing_by_id (update_listing db lid l') lid = some l' :=
  find?_update_self db.listings lid l l' h hid

/-- C3: initiate purchase.  When the listing exists with status AVAILABLE, the
caller is a registered user, and the caller is not the seller, the operation
replaces the listing with one whose status is AWAITING_CONFIRMATION, whose
pending buyer is the caller, whose buyer_id is null, and whose pending_until
is now plus the configured timeout window in minutes (the configured default
PENDING_TIMEOUT_MINUTES is 5, config.py line 35).  When the listing does not
exist, is not AVAILABLE, or the caller is the seller, the call fails and the
database is returned unchanged. -/
theorem C3_initiate_purchase (db : DB) (now timeout_minutes listing_id buyer_tg : Nat) :
    (∀ l u, get_listing_by_id db listing_id = some l →
      l.status = ListingStatus.AVAILABLE →
      get_user_by_telegram_id db buyer_tg = some u →
      l.seller_id ≠ u.id →
      set_listing_awaiting_confirmation db now timeout_minutes listing_id buyer_tg =
        (update_listing db listing_id
          { l with status := ListingStatus.AWAITING_CONFIRMATION
                   pending_buyer_id := some u.id, buyer_id := none
                   pending_until := some (now + timeout_minutes * 60), sold_at := none },
         some { l with status := ListingStatus.AWAITING_CONFIRMATION
                       pending_buyer_id := some u.id, buyer_id := none
                       pending_until := some (now + timeout_minutes * 60), sold_at := none }))
  ∧ (get_listing_by_id db listing_id = none →
      set_listing_awaiting_confirmation db now timeout_minutes listing_id buyer_tg = (db, none))
  ∧ (∀ l, get_listing_by_id db listing_id = some l →
      l.status ≠ ListingStatus.AVAILABLE →
      set_listing_awaiting_confirmation db now timeout_minutes listing_id buyer_tg = (db, none))
  ∧ (∀ l u, get_listing_by_id db listing_id = some l →
      get_user_by_telegram_id db buyer_tg = some u → l.seller_id = u.id →
      set_listing_awaiting_confirmation db now timeout_minutes listing_id buyer_tg = (db, none))
  ∧ PENDING_TIMEOUT_MINUTES_DEFAULT = 5 := by
  refine ⟨?_, ?_, ?_, ?_, rfl⟩
  · intro l u hl hstat hu hne
    simp only [set_listing_awaiting_confirmation, hl, hu]
    rw [if_pos hstat, if_neg hne]
  · intro h
    simp only [set_listing_awaiting_confirmation, h]
  · intro l hl hstat
    simp only [set_listing_awaiting_confirmation, hl]
    rw [if_neg hstat]
  · intro l u hl hu heq
    simp only [set_listing_awaiting_confirmation, hl, hu]
    by_cases hstat : l.status = ListingStatus.AVAILABLE
    · rw [if_pos hstat, if_pos heq]
    · rw [if_neg hstat]

/-- C3 witness: on the concrete database c4db1, buyer 200 initiating the
purchase of listing 1 at time 1000 with a 5-minute window yields the updated
AWAITING_CONFIRMATION listing with pending buyer 2 and deadline 1300. -/
theorem C3_initiate_purchase_witness :
    set_listing_awaiting_confirmation c4db1 1000 5 1 200 =
      (update_listing c4db1 1
        { c4listing with status := ListingStatus.AWAITING_CONFIRMATION
                         pending_buyer_id := some buyerUser.id, buyer_id := none
                         pending_until := some (1000 + 5 * 60), sold_at := none },
       some { c4listing with status := ListingStatus.AWAITING_CONFIRMATION
                             pending_buyer_id := some buyerUser.id, buyer_id := none
                             pending_until := some (1000 + 5 * 60), sold_at := none }) := by
  exact (C3_initiate_purchase c4db1 1000 5 1 200).1 c4listing buyerUser rfl rfl rfl
    (by decide)

/-- Boolean form of not being AWAITING_CONFIRMATION. -/
theorem status_beq_awaiting_false {s : ListingStatus}
    (h : s ≠ ListingStatus.AWAITING_CONFIRMATION) :
    (s == ListingStatus.AWAITING_CONFIRMATION) = false := by
  cases s
  · rfl
  · exact absurd rfl h
  · rfl
  · rfl

/-- A listing that is not AWAITING_CONFIRMATION never matches the sweep
selection. -/
theorem pending_timeout_matches_false {now : Nat} {l : Listing}
    (h : l.status ≠ ListingStatus.AWAITING_CONFIRMATION) :
    pending_timeout_matches now l = false := by
  unfold pending_timeout_matches
  cases hpu : l.pending_until with
  | none => rfl
  | some t => rw [status_beq_awaiting_false h]; rfl

/-- The sweep leaves a listing that is not AWAITING_CONFIRMATION untouched. -/
theorem sweep_step_of_not_awaiting (users : List User) (now : Nat) (l : Listing)
    (h : l.status ≠ ListingStatus.AWAITING_CONFIRMATION) :
    sweep_step users now l = l := by
  unfold sweep_step
  rw [pending_timeout_matches_false h]
  rfl

/-- The sweep never changes a listing's primary key. -/
theorem sweep_step_id (users : List User) (now : Nat) (l : Listing) :
    (sweep_step users now l).id = l.id := by
  unfold sweep_step
  split <;> rfl

/-- Buyer cancellation fails, leaving the database unchanged, whenever the
listing is no longer AWAITING_CONFIRMATION. -/
theorem cancel_fail_of_not_awaiting (db : DB) (now lid btg : Nat) (l : Listing)
    (hl : get_listing_by_id db lid = some l)
    (h : l.status ≠ ListingStatus.AWAITING_CONFIRMATION) :
    cancel_pending_purchase_by_buyer db now lid btg = (db, none) := by
  simp only [cancel_pending_purchase_by_buyer, hl]
  rw [if_neg h]

/-- Seller rejection fails, leaving the database unchanged, whenever the
listing is no longer AWAITING_CONFIRMATION. -/
theorem reject_fail_of_not_awaiting (db : DB) (now lid stg : Nat) (l : Listing)
    (hl : get_listing_by_id db lid = some l)
    (h : l.status ≠ ListingStatus.AWAITING_CONFIRMATION) :
    reject_pending_purchase_by_seller db now lid stg = (db, none) := by
  cases hs : db_get_user db l.seller_id with
  | none => simp only [reject_pending_purchase_by_seller, hl, hs]
  | some seller =>
    simp only [reject_pending_purchase_by_seller, hl, hs]
    by_cases htel : seller.telegram_id = stg
    · rw [if_pos htel, if_neg h]
    · rw [if_neg htel]

/-- Finalization fails, leaving the database unchanged, whenever the listing
is no longer AWAITING_CONFIRMATION (a second finalize on a SOLD listing in
particular). -/
theorem finalize_fail_of_not_awaiting (db : DB) (now lid stg : Nat) (l : Listing)
    (hl : get_listing_by_id db lid = some l)
    (h : l.status ≠ ListingStatus.AWAITING_CONFIRMATION) :
    finalize_listing_sale db now lid stg = (db, none) := by
  cases hs : db_get_user db l.seller_id with
  | none => simp only [finalize_listing_sale, hl, hs]
  | some seller =>
    simp only [finalize_listing_sale, hl, hs]
    by_cases htel : seller.telegram_id = stg
    · rw [if_pos htel, if_neg h]
    · rw [if_neg htel]

/-- A successful finalization produces a SOLD listing stored under the same
primary key in the committed database. -/
theorem finalize_success_inv (db : DB) (now lid stg : Nat) (db' : DB) (r : Listing × String)
    (h : finalize_listing_sale db now lid stg = (db', some r)) :
    r.1.status = ListingStatus.SOLD ∧ get_listing_by_id db' lid = some r.1 := by
  cases hl : get_listing_by_id db lid with
  | none => simp only [finalize_listing_sale, hl] at h; simp at h
  | some l =>
    have hid : l.id = lid := by
      have := List.find?_some hl
      simpa using this
    cases hs : db_get_user db l.seller_id with
    | none => simp only [finalize_listing_sale, hl, hs] at h; simp at h
    | some seller =>
      simp only [finalize_listing_sale, hl, hs] at h
      by_cases htel : seller.telegram_id = stg
      · rw [if_pos htel] at h
        by_cases hstat : l.status = ListingStatus.AWAITING_CONFIRMATION
        · rw [if_pos hstat] at h
          by_cases hpb : l.pending_buyer_id.getD 0 = 0
          · rw [if_pos hpb] at h; simp at h
          · rw [if_neg hpb] at h
            cases hpu : l.pending_buyer_id.bind (fun i => db_get_user db i) with
            | none => simp only [hpu] at h; simp at h
            | some pb =>
              simp only [hpu] at h
              simp only [Prod.mk.injEq, Option.some.injEq] at h
              obtain ⟨hdb', hr⟩ := h
              subst hdb'
              rw [← hr]
              refine ⟨rfl, ?_⟩
              exact get_listing_by_id_update db lid l _ hl hid
        · rw [if_neg hstat] at h; simp at h
      · rw [if_neg htel] at h; simp at h

/-- A successful buyer cancellation produces an AVAILABLE listing stored under
the same primary key in the committed database. -/
theorem cancel_success_inv (db : DB) (now lid btg : Nat) (db' : DB)
    (r : Listing × Option Nat)
    (h : cancel_pending_purchase_by_buyer db now lid btg = (db', some r)) :
    r.1.status = ListingStatus.AVAILABLE ∧ get_listing_by_id db' lid = some r.1 := by
  cases hl : get_listing_by_id db lid with
  | none => simp only [cancel_pending_purchase_by_buyer, hl] at h; simp at h
  | some l =>
    have hid : l.id = lid := by
      have := List.find?_some hl
      simpa using this
    simp only [cancel_pending_purchase_by_buyer, hl] at h
    by_cases hstat : l.status = ListingStatus.AWAITING_CONFIRMATION
    · rw [if_pos hstat] at h
      cases hpu : l.pending_buyer_id.bind (fun i => db_get_user db i) with
      | none => simp only [hpu] at h; simp at h
      | some pb =>
        simp only [hpu] at h
        by_cases htg : pb.telegram_id = btg
        · rw [if_pos htg] at h
          simp only [Prod.mk.injEq, Option.some.injEq] at h
          obtain ⟨hdb', hr⟩ := h
          subst hdb'
          rw [← hr]
          refine ⟨rfl, ?_⟩
          exact get_listing_by_id_update db lid l _ hl hid
        · rw [if_neg htg] at h; simp at h
    · rw [if_neg hstat] at h; simp at h

/-- A successful seller rejection produces an AVAILABLE listing stored under
the same primary key in the committed database. -/
theorem reject_success_inv (db : DB) (now lid stg : Nat) (db' : DB)
    (r : Listing × Option Nat)
    (h : reject_pending_purchase_by_seller db now lid stg = (db', some r)) :
    r.1.status = ListingStatus.AVAILABLE ∧ get_listing_by_id db' lid = some r.1 := by
  cases hl : get_listing_by_id db lid with
  | none => simp only [reject_pending_purchase_by_seller, hl] at h; simp at h
  | some l =>
    have hid : l.id = lid := by
      have := List.find?_some hl
      simpa using this
    cases hs : db_get_user db l.seller_id with
    | none => simp only [reject_pending_purchase_by_seller, hl, hs] at h; simp at h
    | some seller =>
      simp only [reject_pending_purchase_by_seller, hl, hs] at h
      by_cases htel : seller.telegram_id = stg
      · rw [if_pos htel] at h
        by_cases hstat : l.status = ListingStatus.AWAITING_CONFIRMATION
        · rw [if_pos hstat] at h
          simp only [Prod.mk.injEq, Option.some.injEq] at h
          obtain ⟨hdb', hr⟩ := h
          subst hdb'
          rw [← hr]
          refine ⟨rfl, ?_⟩
          exact get_listing_by_id_update db lid l _ hl hid
        · rw [if_neg hstat] at h; simp at h
      · rw [if_neg htel] at h; simp at h

/-- C1 amended: transitions out of AWAITING_CONFIRMATION are mutually
exclusive.  Whenever the listing stored under a primary key is no longer
AWAITING_CONFIRMATION -- in particular right after any one of finalize,
buyer-cancel, seller-reject, or a sweep revert has succeeded, since each of
these leaves the listing SOLD or AVAILABLE (first three conjunct groups) --
every subsequent finalize (including the second finalize of an already SOLD
listing), buyer-cancel and seller-reject returns a bare failure and leaves the
database unchanged, and the sweep leaves the listing untouched.  The failure
carries no reason: it is the same None as every other failure (see the
counterexample for the absent already-SOLD report). -/
theorem C1_mutual_exclusion :
    (∀ (db : DB) (now2 lid stg2 btg : Nat) (l : Listing),
      get_listing_by_id db lid = some l →
      l.status ≠ ListingStatus.AWAITING_CONFIRMATION →
        finalize_listing_sale db now2 lid stg2 = (db, none)
      ∧ cancel_pending_purchase_by_buyer db now2 lid btg = (db, none)
      ∧ reject_pending_purchase_by_seller db now2 lid stg2 = (db, none)
      ∧ get_listing_by_id (check_pending_listings_timeout db now2).1 lid = some l)
  ∧ (∀ (db : DB) (now lid stg : Nat) (db' : DB) (r : Listing × String),
      finalize_listing_sale db now lid stg = (db', some r) →
      r.1.status = ListingStatus.SOLD ∧ get_listing_by_id db' lid = some r.1)
  ∧ (∀ (db : DB) (now lid btg : Nat) (db' : DB) (r : Listing × Option Nat),
      cancel_pending_purchase_by_buyer db now lid btg = (db', some r) →
      r.1.status = ListingStatus.AVAILABLE ∧ get_listing_by_id db' lid = some r.1)
  ∧ (∀ (db : DB) (now lid stg : Nat) (db' : DB) (r : Listing × Option Nat),
      reject_pending_purchase_by_seller db now lid stg = (db', some r) →
      r.1.status = ListingStatus.AVAILABLE ∧ get_listing_by_id db' lid = some r.1)
  ∧ (∀ (users : List User) (now : Nat) (l : Listing),
      (pending_timeout_matches now l && !(sweep_skips users l)) = true →
      (sweep_step users now l).status = ListingStatus.AVAILABLE) := by
  refine ⟨?_,
    fun db now lid stg db' r h => finalize_success_inv db now lid stg db' r h,
    fun db now lid btg db' r h => cancel_success_inv db now lid btg db' r h,
    fun db now lid stg db' r h => reject_success_inv db now lid stg db' r h, ?_⟩
  · intro db now2 lid stg2 btg l hl hstat
    refine ⟨finalize_fail_of_not_awaiting db now2 lid stg2 l hl hstat,
      cancel_fail_of_not_awaiting db now2 lid btg l hl hstat,
      reject_fail_of_not_awaiting db now2 lid stg2 l hl hstat, ?_⟩
    show (db.listings.map (sweep_step db.users now2)).find? (fun x => x.id == lid) = some l
    rw [find?_map_id_preserving db.listings lid (sweep_step db.users now2)
      (fun x => sweep_step_id db.users now2 x)]
    show Option.map (sweep_step db.users now2) (get_listing_by_id db lid) = some l
    rw [hl]
    simp [sweep_step_of_not_awaiting db.users now2 l hstat]
  · intro users now l hsel
    unfold sweep_step
    rw [hsel]
    rfl

/-- A listing awaiting confirmation by buyer 2 with window until time 1300. -/
def c1pendingListing : Listing :=
  { id := 1, seller_id := 1, buyer_id := none, pending_buyer_id := some 2, price := 20000
    status := ListingStatus.AWAITING_CONFIRMATION
    university_reservation_code := "C1AB", meal_id := 1
    sold_at := none, pending_until := some 1300, cancelled_at := none
    cancelled_by_buyer_at := none, rejected_by_seller_at := none }

/-- Database in which that pending purchase is in flight. -/
def c1db : DB :=
  { users := [sellerUser, buyerUser], meals := [demoMeal]
    listings := [c1pendingListing], next_listing_id := 2 }

/-- The same listing after the seller finalized the sale at time 1200. -/
def c1soldListing : Listing :=
  { c1pendingListing with
      status := ListingStatus.SOLD
      buyer_id := some 2
      pending_buyer_id := none
      sold_at := some 1200
      pending_until := none }

/-- The committed database after that successful finalize. -/
def c1soldDb : DB := { c1db with listings := [c1soldListing] }

/-- C1 counterexample: the first finalize succeeds and leaves the listing
SOLD; the second finalize by the same seller fails -- but its return value is
the same bare None that a finalize on a listing that does not exist at all
(id 999) produces.  The claim requires the second call to report already-SOLD;
the code returns an undifferentiated failure with no reason attached, so no
already-SOLD report exists. -/
theorem C1_counterexample :
    finalize_listing_sale c1db 1200 1 100 = (c1soldDb, some (c1soldListing, "C1AB"))
  ∧ (finalize_listing_sale c1soldDb 1250 1 100).2 = none
  ∧ (finalize_listing_sale c1soldDb 1250 999 100).2 = none := by
  refine ⟨?_, rfl, rfl⟩
  rfl

/-- C1 witness: the amended theorem applied to the concrete database after the
successful finalize: every subsequent transition fails and leaves the database
unchanged, and the sweep leaves the SOLD listing in place. -/
theorem C1_mutual_exclusion_witness :
    finalize_listing_sale c1soldDb 1250 1 100 = (c1soldDb, none)
  ∧ cancel_pending_purchase_by_buyer c1soldDb 1250 1 200 = (c1soldDb, none)
  ∧ reject_pending_purchase_by_seller c1soldDb 1250 1 100 = (c1soldDb, none)
  ∧ get_listing_by_id (check_pending_listings_timeout c1soldDb 1250).1 1
      = some c1soldListing := by
  exact C1_mutual_exclusion.1 c1soldDb 1250 1 100 200 c1soldListing rfl (by decide)

/-- Updating one row preserves the table invariant when the replacement row
satisfies the row invariant. -/
theorem db_inv_update (db : DB) (lid : Nat) (l' : Listing)
    (hdb : db_inv db) (hl' : pending_inv l') : db_inv (update_listing db lid l') := by
  intro x hx
  rcases List.mem_map.mp hx with ⟨a, ha, hfa⟩
  by_cases h : (a.id == lid) = true
  · rw [if_pos h] at hfa
    subst hfa
    exact hl'
  · rw [if_neg h] at hfa
    subst hfa
    exact hdb a ha

instance (l : Listing) : Decidable (pending_inv l) := by
  unfold pending_inv
  infer_instance

instance (db : DB) : Decidable (db_inv db) := by
  unfold db_inv
  infer_instance

/-- C6: every state-machine operation preserves the invariant that a listing
is AWAITING_CONFIRMATION exactly when its pending_until and its pending-buyer
reference are both set: create (which, as it stands, always raises before
touching the table), initiate purchase, buyer cancel, seller reject, finalize,
seller cancel of an available listing, and the timeout sweep. -/
theorem C6_invariant_preservation :
    (∀ (db : DB) (s : Nat) (c : String) (m : Nat) (p : Int),
      db_inv db → db_inv (create_listing db s c m p).1)
  ∧ (∀ (db : DB) (now tmo lid btg : Nat),
      db_inv db → db_inv (set_listing_awaiting_confirmation db now tmo lid btg).1)
  ∧ (∀ (db : DB) (now lid btg : Nat),
      db_inv db → db_inv (cancel_pending_purchase_by_buyer db now lid btg).1)
  ∧ (∀ (db : DB) (now lid stg : Nat),
      db_inv db → db_inv (reject_pending_purchase_by_seller db now lid stg).1)
  ∧ (∀ (db : DB) (now lid stg : Nat),
      db_inv db → db_inv (finalize_listing_sale db now lid stg).1)
  ∧ (∀ (db : DB) (now lid stg : Nat),
      db_inv db → db_inv (cancel_available_listing_by_seller db now lid stg).1)
  ∧ (∀ (db : DB) (now : Nat),
      db_inv db → db_inv (check_pending_listings_timeout db now).1) := by
  refine ⟨?_, ?_, ?_, ?_, ?_, ?_, ?_⟩
  · intro db s c m p hdb
    exact hdb
  · intro db now tmo lid btg hdb
    cases hl : get_listing_by_id db lid with
    | none => simp only [set_listing_awaiting_confirmation, hl]; exact hdb
    | some l =>
      cases hu : get_user_by_telegram_id db btg with
      | none =>
        simp only [set_listing_awaiting_confirmation, hl, hu]
        by_cases hstat : l.status = ListingStatus.AVAILABLE
        · rw [if_pos hstat]; exact hdb
        · rw [if_neg hstat]; exact hdb
      | some u =>
        simp only [set_listing_awaiting_confirmation, hl, hu]
        by_cases hstat : l.status = ListingStatus.AVAILABLE
        · rw [if_pos hstat]
          by_cases hself : l.seller_id = u.id
          · rw [if_pos hself]; exact hdb
          · rw [if_neg hself]
            exact db_inv_update db lid _ hdb (by simp [pending_inv])
        · rw [if_neg hstat]; exact hdb
  · intro db now lid btg hdb
    cases hl : get_listing_by_id db lid with
    | none => simp only [cancel_pending_purchase_by_buyer, hl]; exact hdb
    | some l =>
      cases hpu : l.pending_buyer_id.bind (fun i => db_get_user db i) with
      | none =>
        simp only [cancel_pending_purchase_by_buyer, hl, hpu]
        by_cases hstat : l.status = ListingStatus.AWAITING_CONFIRMATION
        · rw [if_pos hstat]; exact hdb
        · rw [if_neg hstat]; exact hdb
      | some pb =>
        simp only [cancel_pending_purchase_by_buyer, hl, hpu]
        by_cases hstat : l.status = ListingStatus.AWAITING_CONFIRMATION
        · rw [if_pos hstat]
          by_cases htg : pb.telegram_id = btg
          · rw [if_pos htg]
            exact db_inv_update db lid _ hdb (by simp [pending_inv])
          · rw [if_neg htg]; exact hdb
        · rw [if_neg hstat]; exact hdb
  · intro db now lid stg hdb
    cases hl : get_listing_by_id db lid with
    | none => simp only [reject_pending_purchase_by_seller, hl]; exact hdb
    | some l =>
      cases hs : db_get_user db l.seller_id with
      | none => simp only [reject_pending_purchase_by_seller, hl, hs]; exact hdb
      | some seller =>
        simp only [reject_pending_purchase_by_seller, hl, hs]
        by_cases htel : seller.telegram_id = stg
        · rw [if_pos htel]
          by_cases hstat : l.status = ListingStatus.AWAITING_CONFIRMATION
          · rw [if_pos hstat]
            exact db_inv_update db lid _ hdb (by simp [pending_inv])
          · rw [if_neg hstat]; exact hdb
        · rw [if_neg htel]; exact hdb
  · intro db now lid stg hdb
    cases hl : get_listing_by_id db lid with
    | none => simp only [finalize_listing_sale, hl]; exact hdb
    | some l =>
      cases hs : db_get_user db l.seller_id with
      | none => simp only [finalize_listing_sale, hl, hs]; exact hdb
      | some seller =>
        cases hpu : l.pending_buyer_id.bind (fun i => db_get_user db i) with
        | none =>
          simp only [finalize_listing_sale, hl, hs, hpu]
          by_cases htel : seller.telegram_id = stg
          · rw [if_pos htel]
            by_cases hstat : l.status = ListingStatus.AWAITING_CONFIRMATION
            · rw [if_pos hstat]
              by_cases hpb : l.pending_buyer_id.getD 0 = 0
              · rw [if_pos hpb]; exact hdb
              · rw [if_neg hpb]; exact hdb
            · rw [if_neg hstat]; exact hdb
          · rw [if_neg htel]; exact hdb
        | some pb =>
          simp only [finalize_listing_sale, hl, hs, hpu]
          by_cases htel : seller.telegram_id = stg
          · rw [if_pos htel]
            by_cases hstat : l.status = ListingStatus.AWAITING_CONFIRMATION
            · rw [if_pos hstat]
              by_cases hpb : l.pending_buyer_id.getD 0 = 0
              · rw [if_pos hpb]; exact hdb
              · rw [if_neg hpb]
                exact db_inv_update db lid _ hdb (by simp [pending_inv])
            · rw [if_neg hstat]; exact hdb
          · rw [if_neg htel]; exact hdb
  · intro db now lid stg hdb
    cases hl : get_listing_by_id db lid with
    | none => simp only [cancel_available_listing_by_seller, hl]; exact hdb
    | some l =>
      cases hs : db_get_user db l.seller_id with
      | none => simp only [cancel_available_listing_by_seller, hl, hs]; exact hdb
      | some seller =>
        simp only [cancel_available_listing_by_seller, hl, hs]
        by_cases htel : seller.telegram_id = stg
        · rw [if_pos htel]
          by_cases hstat : l.status = ListingStatus.AVAILABLE
          · rw [if_pos hstat]
            have hmem := List.mem_of_find?_eq_some hl
            have hinvl := hdb l hmem
            refine db_inv_update db lid _ hdb ?_
            unfold pending_inv at hinvl ⊢
            rw [hstat] at hinvl
            constructor
            · intro hcontr
              exact absurd hcontr (by simp)
            · intro hrhs
              exact absurd (hinvl.mpr hrhs) (by simp)
          · rw [if_neg hstat]; exact hdb
        · rw [if_neg htel]; exact hdb
  · intro db now hdb
    intro x hx
    rcases List.mem_map.mp hx with ⟨a, ha, hfa⟩
    subst hfa
    unfold sweep_step
    by_cases hp : (pending_timeout_matches now a && !(sweep_skips db.users a)) = true
    · rw [if_pos hp]
      simp [pending_inv]
    · rw [if_neg hp]
      exact hdb a ha

/-- C6 witness: the preservation theorem applied to the concrete databases
c4db1 (available listing, invariant holds) and c9db (pending purchase in
flight, invariant holds) for each of the seven operations. -/
theorem C6_invariant_preservation_witness :
    db_inv (create_listing c4db1 1 "W6" 1 100).1
  ∧ db_inv (set_listing_awaiting_confirmation c4db1 1000 5 1 200).1
  ∧ db_inv (cancel_pending_purchase_by_buyer c9db 1400 1 200).1
  ∧ db_inv (reject_pending_purchase_by_seller c9db 1400 1 100).1
  ∧ db_inv (finalize_listing_sale c9db 1250 1 100).1
  ∧ db_inv (cancel_available_listing_by_seller c4db1 1000 1 100).1
  ∧ db_inv (check_pending_listings_timeout c9db 1400).1 := by
  have h := C6_invariant_preservation
  exact ⟨h.1 c4db1 1 "W6" 1 100 (by decide),
    h.2.1 c4db1 1000 5 1 200 (by decide),
    h.2.2.1 c9db 1400 1 200 (by decide),
    h.2.2.2.1 c9db 1400 1 100 (by decide),
    h.2.2.2.2.1 c9db 1250 1 100 (by decide),
    h.2.2.2.2.2.1 c4db1 1000 1 100 (by decide),
    h.2.2.2.2.2.2 c9db 1400 (by decide)⟩

end SelfMarket